import Mathlib

/-!
Shallow embedding of the PIWC-Giessen-Finance Flask application (`src/app.py`)
and proofs about its transaction-ledger, reporting, authentication and
bootstrap logic.

The database session is modelled as explicit Lean lists (`List User`,
`List Transaction`) in insertion order; SQLAlchemy queries become pure
functions on those lists.  Python floats are modelled as exact rationals
(amounts entered through the form are finite decimal literals); the special
values `inf`/`nan` and binary rounding are outside the model, which is noted
on the definitions concerned.
-/

namespace PIWC

/-! ### Character-level helpers (CPython string parsing is modelled on `List Char`) -/

/-- Splits a character list at every separator recognised by `p`; the
separators are dropped.  `splitOnSep p cs` is never `[]`. -/
def splitOnSep (p : Char → Bool) : List Char → List (List Char)
  | [] => [[]]
  | c :: rest =>
    if p c then [] :: splitOnSep p rest
    else
      match splitOnSep p rest with
      | [] => [[c]]
      | g :: gs => (c :: g) :: gs

/-- Numeric value of an ASCII digit character. -/
def digitVal (c : Char) : Nat := c.toNat - 48

/-- Value of a non-empty all-digit character list, `none` otherwise. -/
def digitsVal? (cs : List Char) : Option Nat :=
  if cs = [] then none
  else if cs.all Char.isDigit then
    some (cs.foldl (fun n c => n * 10 + digitVal c) 0)
  else none

/-- Python `str.strip()` as used by `float()`: drop leading and trailing
whitespace. -/
def pyStrip (cs : List Char) : List Char :=
  ((cs.dropWhile Char.isWhitespace).reverse.dropWhile Char.isWhitespace).reverse

/-! ### Dates: `datetime.strptime(s, '%Y-%m-%d').date()` (src/app.py line 81) -/

/-- Calendar date as produced by `datetime.strptime(..., '%Y-%m-%d').date()`. -/
structure PyDate where
  year : Nat
  month : Nat
  day : Nat
deriving DecidableEq, Repr

/-- Ordering of `datetime.date` values: lexicographic on (year, month, day). -/
def PyDate.le (a b : PyDate) : Prop :=
  a.year < b.year ∨
    (a.year = b.year ∧ (a.month < b.month ∨ (a.month = b.month ∧ a.day ≤ b.day)))

instance PyDate.decLe : DecidableRel PyDate.le := fun a b =>
  inferInstanceAs (Decidable (a.year < b.year ∨
    (a.year = b.year ∧ (a.month < b.month ∨ (a.month = b.month ∧ a.day ≤ b.day)))))

theorem PyDate.le_refl (d : PyDate) : PyDate.le d d := by
  unfold PyDate.le
  omega

/-- Gregorian leap-year rule used by `datetime.date`. -/
def is_leap (y : Nat) : Bool :=
  (y % 4 == 0 && y % 100 != 0) || y % 400 == 0

/-- Number of days `datetime.date` accepts in month `m` of year `y`. -/
def days_in_month (y m : Nat) : Nat :=
  if m = 2 then (if is_leap y then 29 else 28)
  else if m = 4 ∨ m = 6 ∨ m = 9 ∨ m = 11 then 30
  else 31

/-- Model of `datetime.strptime(s, '%Y-%m-%d').date()` on ASCII input:
`%Y` matches exactly four digits, `%m` and `%d` one or two digits with the
regex ranges 1-12 and 1-31, the three fields are separated by literal `-`
with nothing left over, and the resulting triple must be a valid calendar
date with year at least `MINYEAR = 1` (otherwise `ValueError`, modelled as
`none`). -/
def strptime_Ymd (s : String) : Option PyDate :=
  match splitOnSep (fun c => c = '-') s.data with
  | [ys, ms, ds] =>
    match (if ys.length = 4 then digitsVal? ys else none),
          (if ms.length = 1 ∨ ms.length = 2 then digitsVal? ms else none),
          (if ds.length = 1 ∨ ds.length = 2 then digitsVal? ds else none) with
    | some y, some m, some d =>
      if 1 ≤ y ∧ 1 ≤ m ∧ m ≤ 12 ∧ 1 ≤ d ∧ d ≤ days_in_month y m then
        some ⟨y, m, d⟩
      else none
    | _, _, _ => none
  | _ => none

/-! ### Amounts: `float(request.form.get('amount'))` (src/app.py line 85) -/

/-- Digit run in a CPython numeric literal: digits with single underscores
allowed strictly between two digits.  Returns the value together with the
number of digits consumed (underscores not counted), or `none` if the run is
empty or malformed.  Auxiliary: processes the characters after a leading
digit. -/
def digitsUCore : List Char → Nat → Nat → Option (Nat × Nat)
  | [], v, k => some (v, k)
  | '_' :: c :: rest, v, k =>
    if c.isDigit then digitsUCore rest (v * 10 + digitVal c) (k + 1) else none
  | ['_'], _, _ => none
  | c :: rest, v, k =>
    if c.isDigit then digitsUCore rest (v * 10 + digitVal c) (k + 1) else none

/-- Digit run with underscore rules of CPython (`1_000` is valid, `1__0`,
`_1`, `1_` are not). -/
def digitsU? : List Char → Option (Nat × Nat)
  | [] => none
  | c :: rest => if c.isDigit then digitsUCore rest (digitVal c) 1 else none

/-- Integer part / fraction part / fraction length of a decimal mantissa
(`12`, `12.`, `12.5`, `.5` are valid; `.` and `1_.5` are not). -/
def mantissa? (cs : List Char) : Option (Nat × Nat × Nat) :=
  match splitOnSep (fun c => c = '.') cs with
  | [ipart] => (digitsU? ipart).map (fun vk => (vk.1, 0, 0))
  | [ipart, fpart] =>
    if ipart = [] ∧ fpart = [] then none
    else
      match (if ipart = [] then some ((0 : Nat), (0 : Nat)) else digitsU? ipart),
            (if fpart = [] then some ((0 : Nat), (0 : Nat)) else digitsU? fpart) with
      | some iv, some fv => some (iv.1, fv.1, fv.2)
      | _, _ => none
  | _ => none

/-- Optionally signed exponent of a decimal literal. -/
def exponent? : List Char → Option Int
  | '+' :: rest => (digitsU? rest).map (fun vk => (vk.1 : Int))
  | '-' :: rest => (digitsU? rest).map (fun vk => -(vk.1 : Int))
  | cs => (digitsU? cs).map (fun vk => (vk.1 : Int))

/-- Exact rational value of the decimal `(ip + fp / 10^fl) * 10^e`, built
with `mkRat` so that the Lean kernel can evaluate it. -/
def decValue (ip fp fl : Nat) (e : Int) : ℚ :=
  match e with
  | .ofNat k => mkRat ((ip * 10 ^ fl + fp) * 10 ^ k) (10 ^ fl)
  | .negSucc k => mkRat (ip * 10 ^ fl + fp) (10 ^ fl * 10 ^ (k + 1))

/-- Unsigned body of a float literal: mantissa with at most one `e`/`E`
exponent. -/
def pyFloatCore (body : List Char) : Option ℚ :=
  match splitOnSep (fun c => c = 'e' ∨ c = 'E') body with
  | [m] => (mantissa? m).map (fun v => decValue v.1 v.2.1 v.2.2 0)
  | [m, ex] =>
    match mantissa? m, exponent? ex with
    | some v, some e => some (decValue v.1 v.2.1 v.2.2 e)
    | _, _ => none
  | _ => none

/-- Model of CPython `float(s)` on finite decimal literals: surrounding
whitespace is stripped, one optional leading sign, then a decimal mantissa
with optional exponent, underscores allowed between digits.  The special
literals `inf`/`infinity`/`nan` (which CPython also accepts) and the binary
rounding of IEEE-754 are outside this exact-rational model; every claim
below quantifies over the modelled domain of finite decimals. -/
def pyFloat (s : String) : Option ℚ :=
  match pyStrip s.data with
  | '+' :: rest => pyFloatCore rest
  | '-' :: rest => (pyFloatCore rest).map Neg.neg
  | t => pyFloatCore t

/-! ### Data model (`models.py` is not under `src/`; modelled from the spec) -/

/-- Modelled from the spec: `models.py` (absent from `src/`) defines `User`
with a unique username and a salted one-way password hash, never the
plaintext. -/
structure User where
  id : Nat
  username : String
  password_hash : String
deriving DecidableEq, Repr

/-- Transaction record as constructed in `add_transaction`
(src/app.py lines 91-96). -/
structure Transaction where
  date : PyDate
  type : String
  category : String
  description : String
  amount : ℚ
  user_id : Nat
deriving DecidableEq, Repr

/-- Modelled from the spec: werkzeug `generate_password_hash` used by
`models.py` `User.set_password` — a deterministic one-way tag standing in
for the salted hash; only the contract (verification succeeds exactly on the
matching plaintext) is used below. -/
def generate_password_hash (pw : String) : String := "hash$" ++ pw

/-- Modelled from the spec: `models.py` `User.check_password` verifies a
plaintext password against the stored hash. -/
def check_password (u : User) (pw : String) : Bool :=
  u.password_hash == generate_password_hash pw

/-- `User.query.filter_by(username=...).first()` (src/app.py lines 118, 165). -/
def find_user (users : List User) (name : String) : Option User :=
  users.find? (fun u => u.username == name)

/-! ### Ledger queries -/

/-- Relation used by `Transaction.query.order_by(Transaction.date.desc())`:
`a` may precede `b` iff `a`'s date is at least `b`'s date. -/
def dateGe (a b : Transaction) : Prop := PyDate.le b.date a.date

instance : DecidableRel dateGe := fun a b =>
  inferInstanceAs (Decidable (PyDate.le b.date a.date))

instance : IsTotal Transaction dateGe :=
  ⟨by
    intro a b
    unfold dateGe PyDate.le
    omega⟩

instance : IsTrans Transaction dateGe :=
  ⟨by
    intro a b c h1 h2
    unfold dateGe PyDate.le at h1 h2 ⊢
    omega⟩

/-- `Transaction.query.order_by(Transaction.date.desc()).all()`
(src/app.py line 70).  The SQL sort is modelled as a stable sort of the
insertion-ordered table. -/
def all_transactions (txs : List Transaction) : List Transaction :=
  List.insertionSort dateGe txs

/-- `Transaction.query.order_by(Transaction.date.desc()).limit(10).all()`
(src/app.py line 53). -/
def recent_transactions (txs : List Transaction) : List Transaction :=
  (all_transactions txs).take 10

/-- SQL `SUM(amount)`: `NULL` (here `none`) on an empty set of rows. -/
def sql_sum : List ℚ → Option ℚ
  | [] => none
  | a :: l => some (a + (sql_sum l).getD 0)

/-- `db.session.query(db.func.sum(Transaction.amount)).filter_by(type=ty).scalar() or 0.0`
(src/app.py lines 48-49); `or 0.0` turns the `NULL` of an empty sum into `0.0`
(and maps a `0.0` sum to itself). -/
def sum_amount_by_type (ty : String) (txs : List Transaction) : ℚ :=
  (sql_sum ((txs.filter (fun t => t.type == ty)).map (fun t => t.amount))).getD 0

/-! ### Routes -/

/-- Financial summary rendered by the dashboard (src/app.py lines 48-59). -/
structure Summary where
  income : ℚ
  expense : ℚ
  balance : ℚ
deriving DecidableEq, Repr

/-- `GET /` (src/app.py lines 44-59): summary plus the ten most recent
transactions.  `uid` is the authenticated user; the queries never mention
it. -/
def dashboard (uid : Nat) (txs : List Transaction) : Summary × List Transaction :=
  let total_income := sum_amount_by_type "Income" txs
  let total_expense := sum_amount_by_type "Expense" txs
  (⟨total_income, total_expense, total_income - total_expense⟩,
    recent_transactions txs)

/-- `GET /transactions` (src/app.py lines 61-72). -/
def list_transactions (uid : Nat) (txs : List Transaction) : List Transaction :=
  all_transactions txs

/-- `flask_login` `login_required` gate: a protected view runs only under an
established session, otherwise the request is redirected to the login page
(`none`). -/
def login_required {α : Type} (session : Option Nat) (view : Nat → α) : Option α :=
  match session with
  | some uid => some (view uid)
  | none => none

/-- Protected dashboard request as seen by a client with session `session`. -/
def dashboard_route (session : Option Nat) (txs : List Transaction) :
    Option (Summary × List Transaction) :=
  login_required session (fun uid => dashboard uid txs)

/-- Form fields posted to `POST /add`. -/
structure AddForm where
  date : String
  type : String
  category : String
  description : String
  amount : String
deriving DecidableEq, Repr

/-- Outcome of `POST /add` (src/app.py lines 79-103). -/
inductive AddOutcome where
  | success
  | invalid_amount
  | invalid_data
deriving DecidableEq, Repr

/-- Flash message attached to each outcome (src/app.py lines 88, 99, 102). -/
def AddOutcome.flash_message : AddOutcome → String
  | .success => "Transaction added successfully!"
  | .invalid_amount => "Amount must be a positive number."
  | .invalid_data => "Invalid data provided. Please check your inputs."

/-- `POST /add` (src/app.py lines 79-103): the date string is parsed first
(line 81), then the amount string (line 85); a `ValueError` from either is
caught by the single `except ValueError` branch (lines 101-103); a parsed
amount `≤ 0` is rejected with a warning (lines 87-89); otherwise the new
transaction is inserted and committed (lines 91-98). -/
def add_transaction (uid : Nat) (form : AddForm) (txs : List Transaction) :
    AddOutcome × List Transaction :=
  match strptime_Ymd form.date with
  | none => (.invalid_data, txs)
  | some d =>
    match pyFloat form.amount with
    | none => (.invalid_data, txs)
    | some amount =>
      if amount ≤ 0 then (.invalid_amount, txs)
      else
        (.success,
          txs ++ [{ date := d, type := form.type, category := form.category,
                    description := form.description, amount := amount,
                    user_id := uid }])

/-! ### CSV export: `GET /download/csv` (src/app.py lines 137-156)

`download_csv` builds a `pandas.DataFrame` from `(date, type, category,
description, amount)` tuples and serialises it with
`df.to_csv(buffer, index=False, encoding='utf-8')`.  pandas delegates the row
writing to the standard `csv.writer` with `QUOTE_MINIMAL`: a field is quoted
(with embedded quotes doubled) exactly when it contains a comma, a quote or a
line break; dates render as `str(datetime.date)` (`YYYY-MM-DD`, zero-padded)
and the float64 amounts as the shortest round-tripping decimal of
`repr(float)`.  The float formatting is modelled for amounts whose exact
value has a finite decimal expansion — which holds for every amount whose
shortest float repr is its own decimal literal, in particular all values used
in the claims. -/

/-- Zero-pad a number to two digits, as in `str(datetime.date)`. -/
def pad2 (n : Nat) : String := if n < 10 then "0" ++ Nat.repr n else Nat.repr n

/-- Zero-pad a year to four digits, as in `str(datetime.date)`. -/
def pad4 (n : Nat) : String :=
  if n < 10 then "000" ++ Nat.repr n
  else if n < 100 then "00" ++ Nat.repr n
  else if n < 1000 then "0" ++ Nat.repr n
  else Nat.repr n

/-- `str(datetime.date)`, i.e. `date.isoformat()`. -/
def PyDate.isoformat (d : PyDate) : String :=
  pad4 d.year ++ "-" ++ pad2 d.month ++ "-" ++ pad2 d.day

/-- Decimal digits of the fraction `n / den` (with `0 ≤ n < den`), stopping
at the exact expansion; the fuel bounds the number of digits. -/
def fracDigits : Nat → Nat → Nat → List Char
  | 0, _, _ => []
  | fuel + 1, n, den =>
    if n = 0 then []
    else Nat.digitChar (n * 10 / den) :: fracDigits fuel (n * 10 % den) den

/-- CPython `repr(float)` for floats whose exact value has a finite decimal
expansion: integer part, a dot, then the fraction digits with trailing zeros
stripped but at least one digit (`1000.0`, `50.25`). -/
def pyFloatRepr (q : ℚ) : String :=
  let sign := if q < 0 then "-" else ""
  let n := q.num.natAbs
  let frac := fracDigits q.den (n % q.den) q.den
  sign ++ Nat.repr (n / q.den) ++ "." ++
    (if frac = [] then "0" else String.mk frac)

/-- Quote-doubling inside a quoted CSV field. -/
def escape_quotes : List Char → List Char
  | [] => []
  | '"' :: rest => '"' :: '"' :: escape_quotes rest
  | c :: rest => c :: escape_quotes rest

/-- One CSV cell under `QUOTE_MINIMAL`: quoted (with `""` for embedded
quotes) iff it contains a comma, quote, or line break. -/
def csv_field (s : String) : String :=
  if s.data.any (fun c => c = ',' ∨ c = '"' ∨ c = '\n' ∨ c = '\r') then
    "\"" ++ String.mk (escape_quotes s.data) ++ "\""
  else s

/-- One data row of the export, in the tuple order of src/app.py line 142. -/
def csv_row (t : Transaction) : String :=
  csv_field t.date.isoformat ++ "," ++ csv_field t.type ++ "," ++
    csv_field t.category ++ "," ++ csv_field t.description ++ "," ++
    csv_field (pyFloatRepr t.amount)

/-- `GET /download/csv` (src/app.py lines 137-156): `Transaction.query.all()`
fetches the table in insertion order (no `order_by`), and the document is the
header line followed by one line per transaction, each terminated by a
newline.  `uid` is the authenticated user; the query never mentions it. -/
def download_csv (uid : Nat) (txs : List Transaction) : String :=
  "Date,Type,Category,Description,Amount\n" ++
    (txs.map (fun t => csv_row t ++ "\n")).foldr (fun a b => a ++ b) ""

/-- Standard CSV parsing of one line (state machine over the characters:
mode 0 = unquoted, 1 = inside quotes, 2 = inside quotes having just read a
quote). -/
def csv_split : List Char → Nat → List Char → List (List Char)
  | [], _, cur => [cur.reverse]
  | c :: rest, mode, cur =>
    if mode = 1 then
      if c = '"' then csv_split rest 2 cur
      else csv_split rest 1 (c :: cur)
    else if mode = 2 then
      if c = '"' then csv_split rest 1 ('"' :: cur)
      else if c = ',' then cur.reverse :: csv_split rest 0 []
      else csv_split rest 0 (c :: cur)
    else
      if c = ',' then cur.reverse :: csv_split rest 0 []
      else if c = '"' then csv_split rest 1 cur
      else csv_split rest 0 (c :: cur)

/-- Re-parse one CSV line into its fields. -/
def csv_parse_line (s : String) : List String :=
  (csv_split s.data 0 []).map String.mk

/-- Lines of a document, splitting at every newline (a document ending in a
newline therefore has a final empty entry). -/
def csv_lines (s : String) : List String :=
  (splitOnSep (fun c => c = '\n') s.data).map String.mk

/-- Outcome of `POST /login` (src/app.py lines 109-126). -/
inductive LoginOutcome where
  | redirect_dashboard (user_id : Nat)
  | invalid_credentials (message : String)
deriving DecidableEq, Repr

/-- `POST /login` (src/app.py lines 115-126): look the user up by username;
`if user and user.check_password(password)` establishes the session, any
other combination flashes one fixed message. -/
def login (users : List User) (username password : String) : LoginOutcome :=
  match find_user users username with
  | some u =>
    if check_password u password then .redirect_dashboard u.id
    else .invalid_credentials "Invalid username or password. Please try again."
  | none => .invalid_credentials "Invalid username or password. Please try again."

/-- `flask init-db` (src/app.py lines 160-175): create the seed `admin` user
only when absent, otherwise leave the store untouched and report that it is
already initialized.  The fresh row id models the autoincrement primary
key. -/
def init_db_command (admin_password : String) (users : List User) :
    List User × String :=
  match find_user users "admin" with
  | none =>
    (users ++ [{ id := users.length + 1, username := "admin",
                 password_hash := generate_password_hash admin_password }],
      "Database initialized and user 'admin' created.")
  | some _ => (users, "Database already initialized and 'admin' user exists.")

/-! ### Helper lemmas -/

theorem sql_sum_getD (l : List ℚ) : (sql_sum l).getD 0 = l.sum := by
  induction l with
  | nil => rfl
  | cons a l ih => simp [sql_sum, ih]

theorem dateGe_of_eq_date {a b : Transaction} (h : a.date = b.date) : dateGe a b := by
  unfold dateGe
  rw [h]
  exact PyDate.le_refl _

theorem filter_orderedInsert_pos (d : PyDate) (a : Transaction)
    (l : List Transaction) (ha : a.date = d) :
    (List.orderedInsert dateGe a l).filter (fun t => decide (t.date = d)) =
      a :: l.filter (fun t => decide (t.date = d)) := by
  induction l with
  | nil => simp [ha]
  | cons b l ih =>
    by_cases hr : dateGe a b
    · simp [List.orderedInsert, if_pos hr, ha]
    · have hbd : ¬ b.date = d := by
        intro hb
        exact hr (dateGe_of_eq_date (by rw [ha, hb]))
      simp [List.orderedInsert, if_neg hr, List.filter_cons, hbd, ih]

theorem filter_orderedInsert_neg (d : PyDate) (a : Transaction)
    (l : List Transaction) (ha : ¬ a.date = d) :
    (List.orderedInsert dateGe a l).filter (fun t => decide (t.date = d)) =
      l.filter (fun t => decide (t.date = d)) := by
  induction l with
  | nil => simp [ha]
  | cons b l ih =>
    by_cases hr : dateGe a b
    · simp [List.orderedInsert, if_pos hr, List.filter_cons, ha]
    · simp [List.orderedInsert, if_neg hr, List.filter_cons, ih]

theorem filter_insertionSort (d : PyDate) (l : List Transaction) :
    (List.insertionSort dateGe l).filter (fun t => decide (t.date = d)) =
      l.filter (fun t => decide (t.date = d)) := by
  induction l with
  | nil => rfl
  | cons a l ih =>
    by_cases ha : a.date = d
    · rw [List.insertionSort, filter_orderedInsert_pos d a _ ha, ih]
      simp [List.filter_cons, ha]
    · rw [List.insertionSort, filter_orderedInsert_neg d a _ ha, ih]
      simp [List.filter_cons, ha]

/-! ### Concrete data used by witnesses and counterexamples -/

/-- First transaction of the CSV round-trip scenario:
(2024-01-05, Income, Salary, "", 1000.00). -/
def tx_salary : Transaction := ⟨⟨2024, 1, 5⟩, "Income", "Salary", "", 1000, 1⟩

/-- Second transaction of the CSV round-trip scenario:
(2024-01-10, Expense, Groceries, "Weekly", 50.25). -/
def tx_groceries : Transaction :=
  ⟨⟨2024, 1, 10⟩, "Expense", "Groceries", "Weekly", mkRat 5025 100, 1⟩

/-- Credential store holding the seeded admin user. -/
def demo_users : List User := [⟨1, "admin", generate_password_hash "correct-horse"⟩]

/-! ### Claim C1 -/

/-- Claim C1, counterexample: a POST /add call whose type is `Transfer`
(outside {Income, Expense}) but whose date parses and whose amount is
positive does not fail — it succeeds and the transaction is persisted with
type `Transfer`, so no InvalidType rejection exists. -/
theorem add_accepts_foreign_type_counterexample :
    (add_transaction 1 ⟨"2024-01-05", "Transfer", "Misc", "", "10"⟩ []).1 =
      AddOutcome.success
  ∧ ¬ ((add_transaction 1 ⟨"2024-01-05", "Transfer", "Misc", "", "10"⟩ []).2 = []) := by
  decide

/-- Claim C1 (amended): `add_transaction` performs no validation of the type
field; every call whose date parses and whose amount parses to a positive
value succeeds and persists the transaction with the given type unchanged,
whatever that type is. -/
theorem add_ignores_type_field (uid : Nat) (form : AddForm)
    (txs : List Transaction) (d : PyDate) (a : ℚ)
    (hd : strptime_Ymd form.date = some d)
    (ha : pyFloat form.amount = some a) (hpos : 0 < a) :
    add_transaction uid form txs =
      (.success,
        txs ++ [{ date := d, type := form.type, category := form.category,
                  description := form.description, amount := a,
                  user_id := uid }]) := by
  simp [add_transaction, hd, ha, if_neg (not_le.mpr hpos)]

/-- Claim C1 (amended), witness at the `Transfer` input. -/
theorem add_ignores_type_field_witness :
    add_transaction 1 ⟨"2024-01-05", "Transfer", "Misc", "", "10"⟩ [] =
      (.success, [⟨⟨2024, 1, 5⟩, "Transfer", "Misc", "", 10, 1⟩]) :=
  add_ignores_type_field 1 ⟨"2024-01-05", "Transfer", "Misc", "", "10"⟩ []
    ⟨2024, 1, 5⟩ 10 (by decide) (by decide) (by decide)

/-! ### Claim C2 -/

/-- Claim C2, counterexample: for the two spec transactions the first data
row of the export re-parses with amount field `1000.0`, not the two-decimal
`1000.00` the claim requires. -/
theorem csv_not_two_decimal_counterexample :
    ((csv_lines (download_csv 1 [tx_salary, tx_groceries])).map csv_parse_line)[1]? =
      some ["2024-01-05", "Income", "Salary", "", "1000.0"]
  ∧ ¬ (((csv_lines (download_csv 1 [tx_salary, tx_groceries])).map csv_parse_line)[1]? =
      some ["2024-01-05", "Income", "Salary", "", "1000.00"]) := by
  decide

/-- Claim C2 (amended): for the ledger with exactly the two spec
transactions, the export's header row is exactly
`Date,Type,Category,Description,Amount`, and the two data rows, re-parsed as
CSV, reproduce the date, type, category and description fields exactly, with
the amounts rendered in Python float repr (`1000.0` and `50.25`) rather than
with two forced decimals. -/
theorem csv_roundtrip_float_repr :
    csv_lines (download_csv 1 [tx_salary, tx_groceries]) =
      ["Date,Type,Category,Description,Amount",
       "2024-01-05,Income,Salary,,1000.0",
       "2024-01-10,Expense,Groceries,Weekly,50.25", ""]
  ∧ (csv_lines (download_csv 1 [tx_salary, tx_groceries])).map csv_parse_line =
      [["Date", "Type", "Category", "Description", "Amount"],
       ["2024-01-05", "Income", "Salary", "", "1000.0"],
       ["2024-01-10", "Expense", "Groceries", "Weekly", "50.25"],
       [""]] := by
  decide

/-! ### Claim C3 -/

/-- Claim C3: `all_transactions` lists every transaction (a permutation of
the table) in date-descending order with ties kept in insertion order
(stably: filtering to any fixed date returns exactly the insertion-ordered
rows of that date), and `recent_transactions` is the 10-element prefix of it,
of length `min 10 (number of transactions)`. -/
theorem listing_sorted_stable_and_recent_prefix (txs : List Transaction) :
    List.Sorted dateGe (all_transactions txs)
  ∧ List.Perm (all_transactions txs) txs
  ∧ (∀ d : PyDate,
      (all_transactions txs).filter (fun t => decide (t.date = d)) =
        txs.filter (fun t => decide (t.date = d)))
  ∧ recent_transactions txs = (all_transactions txs).take 10
  ∧ (recent_transactions txs).length = min 10 txs.length := by
  refine ⟨List.sorted_insertionSort dateGe txs, List.perm_insertionSort dateGe txs,
    fun d => filter_insertionSort d txs, rfl, ?_⟩
  have hlen : (all_transactions txs).length = txs.length :=
    (List.perm_insertionSort dateGe txs).length_eq
  rw [recent_transactions, List.length_take, hlen]

/-! ### Claim C4 -/

/-- Claim C4: a POST /add call whose date parses and whose amount parses to a
value `≤ 0` fails with the invalid-amount outcome (flash
`Amount must be a positive number.`) and leaves the ledger unchanged. -/
theorem add_rejects_nonpositive_amount (uid : Nat) (form : AddForm)
    (txs : List Transaction) (d : PyDate) (a : ℚ)
    (hd : strptime_Ymd form.date = some d)
    (ha : pyFloat form.amount = some a) (hle : a ≤ 0) :
    add_transaction uid form txs = (.invalid_amount, txs)
  ∧ AddOutcome.invalid_amount.flash_message = "Amount must be a positive number." := by
  simp [add_transaction, hd, ha, if_pos hle, AddOutcome.flash_message]

/-- Claim C4, witness at amount `-5` on a one-row ledger. -/
theorem add_rejects_nonpositive_amount_witness :
    add_transaction 3 ⟨"2024-01-05", "Expense", "Food", "", "-5"⟩ [tx_salary] =
      (.invalid_amount, [tx_salary]) :=
  (add_rejects_nonpositive_amount 3 ⟨"2024-01-05", "Expense", "Food", "", "-5"⟩
    [tx_salary] ⟨2024, 1, 5⟩ (-5) (by decide) (by decide) (by decide)).1

/-! ### Claim C5 -/

/-- Claim C5: the dashboard summary's income is the sum of the amounts of the
Income transactions, its expense the sum of the Expense amounts, its balance
is income minus expense, and on the empty ledger all three are zero. -/
theorem summary_sums_and_balance (uid : Nat) (txs : List Transaction) :
    (dashboard uid txs).1.income =
      ((txs.filter (fun t => t.type == "Income")).map (fun t => t.amount)).sum
  ∧ (dashboard uid txs).1.expense =
      ((txs.filter (fun t => t.type == "Expense")).map (fun t => t.amount)).sum
  ∧ (dashboard uid txs).1.balance =
      (dashboard uid txs).1.income - (dashboard uid txs).1.expense
  ∧ (dashboard uid []).1 = ⟨0, 0, 0⟩ := by
  refine ⟨?_, ?_, rfl, ?_⟩ <;>
    simp [dashboard, sum_amount_by_type, sql_sum_getD]

/-! ### Claim C6 -/

/-- Claim C6: a POST /add call with parsable date, type Income or Expense,
any category and description, and a positive parsed amount succeeds, and a
transaction with exactly the given field values is retrievable from the full
listing afterwards. -/
theorem add_valid_then_retrievable (uid : Nat) (form : AddForm)
    (txs : List Transaction) (d : PyDate) (a : ℚ)
    (hd : strptime_Ymd form.date = some d)
    (ha : pyFloat form.amount = some a) (hpos : 0 < a)
    (hty : form.type = "Income" ∨ form.type = "Expense") :
    (add_transaction uid form txs).1 = .success
  ∧ ∃ t ∈ all_transactions (add_transaction uid form txs).2,
      t.date = d ∧ t.type = form.type ∧ t.category = form.category ∧
        t.description = form.description ∧ t.amount = a ∧ t.user_id = uid := by
  have hstep : add_transaction uid form txs =
      (.success, txs ++ [⟨d, form.type, form.category, form.description, a, uid⟩]) := by
    simp [add_transaction, hd, ha, if_neg (not_le.mpr hpos)]
  rw [hstep]
  refine ⟨rfl,
    ⟨⟨d, form.type, form.category, form.description, a, uid⟩, ?_,
      rfl, rfl, rfl, rfl, rfl, rfl⟩⟩
  exact (List.perm_insertionSort dateGe _).mem_iff.mpr (by simp)

/-- Claim C6, witness: a concrete valid Income insertion round-trips through
the listing. -/
theorem add_valid_then_retrievable_witness :
    (add_transaction 7 ⟨"2024-01-05", "Income", "Tithes", "January", "10"⟩ []).1 =
      .success
  ∧ ∃ t ∈ all_transactions
        (add_transaction 7 ⟨"2024-01-05", "Income", "Tithes", "January", "10"⟩ []).2,
      t.date = ⟨2024, 1, 5⟩ ∧ t.type = "Income" ∧ t.category = "Tithes" ∧
        t.description = "January" ∧ t.amount = 10 ∧ t.user_id = 7 :=
  add_valid_then_retrievable 7 ⟨"2024-01-05", "Income", "Tithes", "January", "10"⟩
    [] ⟨2024, 1, 5⟩ 10 (by decide) (by decide) (by decide) (Or.inl rfl)

/-! ### Claim C7 -/

/-- Claim C7: a login attempt with an unknown username and one with a known
username but wrong password produce identical user-visible outcomes (the one
generic invalid-credentials flash), and a login with correct credentials
establishes a session under which a protected request (the dashboard)
succeeds instead of redirecting. -/
theorem login_failures_identical_and_success_grants_session
    (users : List User) (txs : List Transaction)
    (u1 pw1 u2 pw2 : String) (w : User)
    (h1 : find_user users u1 = none)
    (h2 : find_user users u2 = some w)
    (hw : check_password w pw2 = false) :
    login users u1 pw1 =
      .invalid_credentials "Invalid username or password. Please try again."
  ∧ login users u2 pw2 = login users u1 pw1
  ∧ (∀ (u pw : String) (v : User), find_user users u = some v →
      check_password v pw = true →
        login users u pw = .redirect_dashboard v.id
      ∧ dashboard_route (some v.id) txs = some (dashboard v.id txs)) := by
  refine ⟨by simp [login, h1], by simp [login, h1, h2, hw], ?_⟩
  intro u pw v hv hcp
  exact ⟨by simp [login, hv, hcp], rfl⟩

/-- Claim C7, witness on the seeded store: unknown user and wrong password
yield the same outcome, and the correct password logs in and unlocks the
dashboard. -/
theorem login_failures_identical_witness :
    login demo_users "ghost" "anything" =
      .invalid_credentials "Invalid username or password. Please try again."
  ∧ login demo_users "admin" "wrong" = login demo_users "ghost" "anything"
  ∧ login demo_users "admin" "correct-horse" = .redirect_dashboard 1
  ∧ dashboard_route (some 1) [] = some (dashboard 1 []) := by
  have h := login_failures_identical_and_success_grants_session demo_users []
    "ghost" "anything" "admin" "wrong"
    ⟨1, "admin", generate_password_hash "correct-horse"⟩
    (by decide) (by decide) (by decide)
  exact ⟨h.1, h.2.1,
    (h.2.2 "admin" "correct-horse"
      ⟨1, "admin", generate_password_hash "correct-horse"⟩
      (by decide) (by decide)).1,
    (h.2.2 "admin" "correct-horse"
      ⟨1, "admin", generate_password_hash "correct-horse"⟩
      (by decide) (by decide)).2⟩

/-! ### Claim C8 -/

/-- Claim C8: when a user named `admin` already exists, `init-db` is a no-op
on the store (zero writes) and reports that the database is already
initialized. -/
theorem bootstrap_idempotent_when_admin_exists (pw : String) (users : List User)
    (h : ∃ u ∈ users, u.username = "admin") :
    init_db_command pw users =
      (users, "Database already initialized and 'admin' user exists.") := by
  obtain ⟨u, hu, hname⟩ := h
  rcases hf : users.find? (fun v => v.username == "admin") with _ | w
  · exfalso
    have := List.find?_eq_none.mp hf u hu
    simp [hname] at this
  · simp [init_db_command, find_user, hf]

/-- Claim C8, witness: re-running the bootstrap on the seeded store changes
nothing and reports the already-initialized message. -/
theorem bootstrap_idempotent_witness :
    init_db_command "seed-pw" demo_users =
      (demo_users, "Database already initialized and 'admin' user exists.") :=
  bootstrap_idempotent_when_admin_exists "seed-pw" demo_users
    ⟨⟨1, "admin", generate_password_hash "correct-horse"⟩, by simp [demo_users], rfl⟩

/-! ### Claim C9 -/

/-- Claim C9: the protected reads — dashboard summary and recent list, full
transaction list, CSV export — do not depend on which authenticated user
issues them, and the listing covers every transaction in the store
regardless of its owner. -/
theorem protected_reads_identical_for_all_users (u1 u2 : Nat)
    (txs : List Transaction) :
    dashboard u1 txs = dashboard u2 txs
  ∧ list_transactions u1 txs = list_transactions u2 txs
  ∧ download_csv u1 txs = download_csv u2 txs
  ∧ (∀ t ∈ txs, t ∈ list_transactions u1 txs) := by
  refine ⟨rfl, rfl, rfl, fun t ht => ?_⟩
  exact (List.perm_insertionSort dateGe txs).mem_iff.mpr ht

/-- Claim C9, witness: two different users observe the same views of a ledger
holding another user's transaction, and that transaction is listed. -/
theorem protected_reads_identical_witness :
    dashboard 1 [tx_salary] = dashboard 2 [tx_salary]
  ∧ download_csv 1 [tx_salary] = download_csv 2 [tx_salary]
  ∧ tx_salary ∈ list_transactions 1 [tx_salary] :=
  ⟨(protected_reads_identical_for_all_users 1 2 [tx_salary]).1,
   (protected_reads_identical_for_all_users 1 2 [tx_salary]).2.2.1,
   (protected_reads_identical_for_all_users 1 2 [tx_salary]).2.2.2 tx_salary
     (by simp)⟩

/-! ### Claim C10 -/

/-- Claim C10: in `add_transaction` the date is parsed before the amount is
examined — an unparsable date yields the generic invalid-data outcome
whatever the amount field holds, an unparsable amount after a good date
yields the same outcome with the same flash message, and every non-success
outcome leaves the ledger unchanged. -/
theorem add_failure_modes_and_no_write (uid : Nat) (form : AddForm)
    (txs : List Transaction) :
    (strptime_Ymd form.date = none →
      add_transaction uid form txs = (.invalid_data, txs))
  ∧ (∀ d : PyDate, strptime_Ymd form.date = some d →
      pyFloat form.amount = none →
        add_transaction uid form txs = (.invalid_data, txs))
  ∧ (∀ (out : AddOutcome) (txs2 : List Transaction),
      add_transaction uid form txs = (out, txs2) → ¬ out = .success → txs2 = txs)
  ∧ AddOutcome.invalid_data.flash_message =
      "Invalid data provided. Please check your inputs." := by
  refine ⟨fun h => by simp [add_transaction, h],
    fun d hd hf => by simp [add_transaction, hd, hf], ?_, rfl⟩
  intro out txs2 heq hne
  rcases hD : strptime_Ymd form.date with _ | d
  · simp only [add_transaction, hD] at heq
    exact (Prod.mk.injEq _ _ _ _ ▸ heq).2.symm
  · rcases hF : pyFloat form.amount with _ | a
    · simp only [add_transaction, hD, hF] at heq
      exact (Prod.mk.injEq _ _ _ _ ▸ heq).2.symm
    · by_cases hle : a ≤ 0
      · simp only [add_transaction, hD, hF, if_pos hle] at heq
        exact (Prod.mk.injEq _ _ _ _ ▸ heq).2.symm
      · simp only [add_transaction, hD, hF, if_neg hle] at heq
        exact absurd (Prod.mk.injEq _ _ _ _ ▸ heq).1.symm hne

/-- Claim C10, witness: an unparsable date together with a negative amount
string produces the generic invalid-data outcome (not the amount warning)
and writes nothing. -/
theorem add_failure_modes_witness :
    add_transaction 1 ⟨"2024-13-40", "Income", "Misc", "x", "-7"⟩ [tx_salary] =
      (.invalid_data, [tx_salary]) :=
  (add_failure_modes_and_no_write 1 ⟨"2024-13-40", "Income", "Misc", "x", "-7"⟩
    [tx_salary]).1 (by decide)

end PIWC
